import Mathlib

/-!
Verification of the client-side API/session layer of the chat frontend
(`frontend/src/lib/api.ts`): session store, request dispatcher (`apiFetch`)
and streaming consumer (`sendMessageStream`).

JavaScript strings manipulated by the streaming consumer are modelled as
`List Char`; JSON values produced by `JSON.parse` are modelled by the
inductive `Json` together with an executable parser `jsonParse` that follows
the JSON grammar (objects, arrays, strings with escapes, numbers, literals,
whitespace, duplicate keys resolved to the last occurrence).  JavaScript
property access, truthiness and the `||` operator are modelled explicitly
(`jsProp`, `jsTruthy`, `jsOr`); in particular property access on `null`
throws, which `jsProp` reports as an `Except.error`.
-/

abbrev Str := List Char

/-- JSON values, as produced by `JSON.parse`.  Numbers are kept exactly as
`sig * 10 ^ exp10` (significand and decimal exponent), which is faithful for
every decimal literal appearing in this development. -/
inductive Json where
  | null : Json
  | bool (b : Bool) : Json
  | num (sig : Int) (exp10 : Int) : Json
  | str (s : Str) : Json
  | arr (elems : List Json) : Json
  | obj (fields : List (Str × Json)) : Json

/-- JSON insignificant whitespace characters. -/
def jsonWs (c : Char) : Bool :=
  c = ' ' || c = '\t' || c = '\n' || c = '\r'

/-- Drop leading JSON whitespace. -/
def skipWs : Str → Str
  | [] => []
  | c :: rest => if jsonWs c then skipWs rest else c :: rest

/-- Value of a hexadecimal digit. -/
def hexVal (c : Char) : Option Nat :=
  if '0' ≤ c ∧ c ≤ '9' then some (c.toNat - '0'.toNat)
  else if 'a' ≤ c ∧ c ≤ 'f' then some (c.toNat - 'a'.toNat + 10)
  else if 'A' ≤ c ∧ c ≤ 'F' then some (c.toNat - 'A'.toNat + 10)
  else none

/-- Value of a decimal digit. -/
def digitVal (c : Char) : Option Nat :=
  if '0' ≤ c ∧ c ≤ '9' then some (c.toNat - '0'.toNat) else none

/-- Single-character JSON string escapes. -/
def escChar : Char → Option Char
  | '"' => some '"'
  | '\\' => some '\\'
  | '/' => some '/'
  | 'b' => some (Char.ofNat 8)
  | 'f' => some (Char.ofNat 12)
  | 'n' => some '\n'
  | 'r' => some '\r'
  | 't' => some '\t'
  | _ => none

/-- Body of a JSON string after the opening quote: returns the decoded
characters and the input remaining after the closing quote.  Unescaped
control characters are rejected, as by `JSON.parse`. -/
def parseStrBody : Str → Option (Str × Str)
  | [] => none
  | '"' :: rest => some ([], rest)
  | '\\' :: 'u' :: h1 :: h2 :: h3 :: h4 :: rest =>
      (match hexVal h1, hexVal h2, hexVal h3, hexVal h4 with
       | some a, some b, some c, some d =>
           match parseStrBody rest with
           | some (s, r) => some (Char.ofNat (((a * 16 + b) * 16 + c) * 16 + d) :: s, r)
           | none => none
       | _, _, _, _ => none)
  | '\\' :: e :: rest =>
      (match escChar e with
       | some c =>
           match parseStrBody rest with
           | some (s, r) => some (c :: s, r)
           | none => none
       | none => none)
  | c :: rest =>
      if c.toNat < 32 then none
      else
        match parseStrBody rest with
        | some (s, r) => some (c :: s, r)
        | none => none

/-- Take a maximal run of decimal digits. -/
def takeDigits : Str → (List Nat × Str)
  | [] => ([], [])
  | c :: rest =>
      match digitVal c with
      | some d =>
          let p := takeDigits rest
          (d :: p.1, p.2)
      | none => ([], c :: rest)

/-- Read a digit list as a natural number, most significant first. -/
def digitsToNat (ds : List Nat) : Nat :=
  ds.foldl (fun a d => a * 10 + d) 0

/-- Optional fraction part `.digits` of a JSON number; `none` means a syntax
error, `some ([], s)` means no fraction part present. -/
def parseFrac : Str → Option (List Nat × Str)
  | '.' :: rest =>
      (match takeDigits rest with
       | ([], _) => none
       | (ds, r) => some (ds, r))
  | s => some ([], s)

/-- Exponent digits after `e`/`E` and an optional sign. -/
def parseExpAfterE (s : Str) : Option (Int × Str) :=
  let p : Bool × Str :=
    match s with
    | '-' :: r => (true, r)
    | '+' :: r => (false, r)
    | _ => (false, s)
  match takeDigits p.2 with
  | ([], _) => none
  | (ds, r) => some (if p.1 then -(digitsToNat ds : Int) else (digitsToNat ds : Int), r)

/-- Optional exponent part of a JSON number. -/
def parseExp : Str → Option (Int × Str)
  | 'e' :: rest => parseExpAfterE rest
  | 'E' :: rest => parseExpAfterE rest
  | s => some (0, s)

/-- A JSON number: optional minus sign, integer part without leading zeros,
optional fraction, optional exponent. -/
def parseNumber (s : Str) : Option (Json × Str) :=
  let p : Bool × Str :=
    match s with
    | '-' :: r => (true, r)
    | _ => (false, s)
  match p.2 with
  | [] => none
  | c :: rest =>
      match digitVal c with
      | none => none
      | some d =>
        let ip : List Nat × Str :=
          if c = '0' then ([0], rest)
          else
            let q := takeDigits rest
            (d :: q.1, q.2)
        match parseFrac ip.2 with
        | none => none
        | some (fracDs, r2) =>
          match parseExp r2 with
          | none => none
          | some (e, r3) =>
            let mag : Nat := digitsToNat (ip.1 ++ fracDs)
            let sig : Int := if p.1 then -(mag : Int) else (mag : Int)
            some (Json.num sig (e - (fracDs.length : Int)), r3)

mutual

/-- A JSON value with leading whitespace; fuelled recursion (the fuel bounds
the nesting depth, each level of which consumes input). -/
def parseVal : Nat → Str → Option (Json × Str)
  | 0, _ => none
  | fuel + 1, s =>
    match skipWs s with
    | '{' :: rest =>
        (match skipWs rest with
         | '}' :: r => some (Json.obj [], r)
         | _ =>
            match parseMembers fuel rest with
            | some (fs, r) => some (Json.obj fs, r)
            | none => none)
    | '[' :: rest =>
        (match skipWs rest with
         | ']' :: r => some (Json.arr [], r)
         | _ =>
            match parseElems fuel rest with
            | some (es, r) => some (Json.arr es, r)
            | none => none)
    | '"' :: rest =>
        (match parseStrBody rest with
         | some (cs, r) => some (Json.str cs, r)
         | none => none)
    | 't' :: 'r' :: 'u' :: 'e' :: r => some (Json.bool true, r)
    | 'f' :: 'a' :: 'l' :: 's' :: 'e' :: r => some (Json.bool false, r)
    | 'n' :: 'u' :: 'l' :: 'l' :: r => some (Json.null, r)
    | s1 => parseNumber s1

/-- One or more `"key": value` members of a JSON object, up to the closing
brace. -/
def parseMembers : Nat → Str → Option (List (Str × Json) × Str)
  | 0, _ => none
  | fuel + 1, s =>
    match skipWs s with
    | '"' :: rest =>
        (match parseStrBody rest with
         | none => none
         | some (key, r1) =>
           match skipWs r1 with
           | ':' :: r2 =>
             (match parseVal fuel r2 with
              | none => none
              | some (v, r3) =>
                match skipWs r3 with
                | ',' :: r4 =>
                    (match parseMembers fuel r4 with
                     | some (fs, r5) => some ((key, v) :: fs, r5)
                     | none => none)
                | '}' :: r4 => some ([(key, v)], r4)
                | _ => none)
           | _ => none)
    | _ => none

/-- One or more elements of a JSON array, up to the closing bracket. -/
def parseElems : Nat → Str → Option (List Json × Str)
  | 0, _ => none
  | fuel + 1, s =>
    match parseVal fuel s with
    | none => none
    | some (v, r1) =>
      match skipWs r1 with
      | ',' :: r2 =>
          (match parseElems fuel r2 with
           | some (es, r3) => some (v :: es, r3)
           | none => none)
      | ']' :: r2 => some ([v], r2)
      | _ => none

end

/-- Model of `JSON.parse`: a single JSON value surrounded only by
whitespace; `none` when `JSON.parse` would throw. -/
def jsonParse (s : Str) : Option Json :=
  match parseVal (s.length + 1) s with
  | some (j, r) => if skipWs r = [] then some j else none
  | none => none

/-- Field lookup in a parsed JSON object; with duplicate keys the last
occurrence wins, as in `JSON.parse`. -/
def jget (fields : List (Str × Json)) (k : Str) : Option Json :=
  match fields with
  | [] => none
  | (k1, v) :: rest =>
      match jget rest k with
      | some v1 => some v1
      | none => if k1 = k then some v else none

/-- JavaScript property access `j[k]` on a parsed JSON value: throws a
TypeError on `null` (reported as `Except.error`), yields the field of an
object, and `undefined` (`none`) on every other value. -/
def jsProp (j : Json) (k : Str) : Except String (Option Json) :=
  match j with
  | Json.null => Except.error "TypeError"
  | Json.obj fields => Except.ok (jget fields k)
  | _ => Except.ok none

/-- The field a successful JavaScript property access yields (meaningful
when the value is not `null`). -/
def jsPropD (j : Json) (k : Str) : Option Json :=
  match j with
  | Json.obj fields => jget fields k
  | _ => none

/-- JavaScript truthiness of a parsed JSON value. -/
def jsTruthy : Json → Bool
  | Json.null => false
  | Json.bool b => b
  | Json.num sig _ => sig != 0
  | Json.str s => !s.isEmpty
  | Json.arr _ => true
  | Json.obj _ => true

/-- JavaScript `v || fallback` where `v` may be `undefined` (`none`). -/
def jsOr (v : Option Json) (fallback : Json) : Json :=
  match v with
  | some j => if jsTruthy j then j else fallback
  | none => fallback

/-! ## Session store (`getToken` / `setToken` / `clearToken`, lines 168-179)

`localStorage` holds at most one value under the key `"token"`, modelled as
an `Option String` passed explicitly.  The `typeof window === "undefined"`
guard in `getToken` returns `null` outside a browser, which coincides with
the empty storage state; the model is the in-browser behaviour. -/

/-- `getToken`: the stored token or `null`. -/
def getToken (storage : Option String) : Option String :=
  storage

/-- `setToken`: overwrite the stored token. -/
def setToken (token : String) (_storage : Option String) : Option String :=
  some token

/-- `clearToken`: remove the stored token. -/
def clearToken (_storage : Option String) : Option String :=
  none

/-- JavaScript truthiness of a `string | null` value: `null` and the empty
string are falsy. -/
def jsTruthyStr : Option String → Bool
  | none => false
  | some s => s != ""

/-- `isLoggedIn` (line 263-265): `!!getToken()`. -/
def isLoggedIn (storage : Option String) : Bool :=
  jsTruthyStr (getToken storage)

/-! ## Request headers

A JavaScript header object is modelled extensionally as a partial map from
header names to values; an object-literal spread lets later keys win, and an
indexed assignment `h[k] = v` overrides. -/

abbrev Headers := String → Option String

/-- Indexed assignment `h[k] = v` on a header object. -/
def hset (h : Headers) (k v : String) : Headers :=
  fun k1 => if k1 = k then some v else h k1

/-- Object spread `\x7b ...base, ...extra \x7d`: keys of `extra` win. -/
def mergeHeaders (base extra : Headers) : Headers :=
  fun k =>
    match extra k with
    | some v => some v
    | none => base k

/-- The fixed base header object of `apiFetch`. -/
def contentTypeJson : Headers :=
  fun k => if k = "Content-Type" then some "application/json" else none

/-- Header construction of `apiFetch` (lines 184-191): spread the caller's
headers over the fixed `Content-Type`, then assign `Authorization` when the
token is truthy. -/
def apiFetchHeaders (token : Option String) (caller : Headers) : Headers :=
  let headers := mergeHeaders contentTypeJson caller
  match token with
  | some t => if t != "" then hset headers "Authorization" ("Bearer " ++ t) else headers
  | none => headers

/-- JavaScript template-literal interpolation of a `string | null` value:
`null` prints as the four characters `null`. -/
def jsTemplateStr : Option String → String
  | none => "null"
  | some s => s

/-- Header object of `sendMessageStream` (lines 316-319): a literal with
`Content-Type` and an unconditional `Authorization: Bearer <token>` built by
template interpolation. -/
def sendMessageStreamHeaders (token : Option String) : Headers :=
  hset (hset (fun _ => none) "Content-Type" "application/json")
    "Authorization" ("Bearer " ++ jsTemplateStr token)

/-! ## Request dispatcher `apiFetch` (lines 183-212)

The model issues exactly one fetch (the code has no retry) and records the
headers sent, the storage after the call, the number of navigations to
`/login`, whether `res.json()` was invoked, and the outcome. -/

/-- Configured base URL (the `NEXT_PUBLIC_API_URL` fallback). -/
def API_URL : String := "http://localhost:8000"

/-- `res.ok`: status in the range 200-299. -/
def resOk (status : Nat) : Bool :=
  200 ≤ status && status ≤ 299

/-- An HTTP response as `apiFetch` observes it: the status, and the outcome
of `res.json()` on the failure path respectively the success path (`none`
means the promise rejected, i.e. the body was not valid JSON). -/
structure ApiResponse where
  status : Nat
  errJson : Option Json
  okJson : Option Json

/-- How an `apiFetch` call ends: the parsed body, a thrown
`Error(message)`, a TypeError from reading `.detail` of a `null` error
body, or the rejection of `res.json()` on the success path. -/
inductive ApiOutcome where
  | success (v : Json)
  | failure (msg : Json)
  | typeError
  | jsonReject

/-- Everything observable about one `apiFetch` call. -/
structure ApiFetchResult where
  url : String
  headersSent : Headers
  storage : Option String
  navCount : Nat
  bodyParsed : Bool
  outcome : ApiOutcome

/-- `apiFetch` (lines 183-212): read the token, build headers, fetch once;
on 401 clear the token, navigate to `/login` and throw `Unauthorized`
without touching the body; on any other failure parse an error body with a
fallback and throw its `detail`; otherwise return the parsed body. -/
def apiFetch (storage : Option String) (path : String) (caller : Headers)
    (r : ApiResponse) : ApiFetchResult :=
  let token := getToken storage
  let headers := apiFetchHeaders token caller
  let url := API_URL ++ path
  if r.status = 401 then
    { url := url, headersSent := headers, storage := clearToken storage,
      navCount := 1, bodyParsed := false,
      outcome := ApiOutcome.failure (Json.str "Unauthorized".data) }
  else if resOk r.status = false then
    let errBody :=
      match r.errJson with
      | some j => j
      | none => Json.obj [("detail".data, Json.str "Request failed".data)]
    match jsProp errBody "detail".data with
    | Except.error _ =>
        { url := url, headersSent := headers, storage := storage,
          navCount := 0, bodyParsed := true, outcome := ApiOutcome.typeError }
    | Except.ok d =>
        { url := url, headersSent := headers, storage := storage,
          navCount := 0, bodyParsed := true,
          outcome := ApiOutcome.failure (jsOr d (Json.str "Request failed".data)) }
  else
    match r.okJson with
    | none =>
        { url := url, headersSent := headers, storage := storage,
          navCount := 0, bodyParsed := true, outcome := ApiOutcome.jsonReject }
    | some v =>
        { url := url, headersSent := headers, storage := storage,
          navCount := 0, bodyParsed := true, outcome := ApiOutcome.success v }

/-! ## Chat request bodies (lines 281-301 and 320-329) -/

/-- A source attached by the backend to an assistant message. -/
structure Source where
  filename : String
  type : String
  drive_link : Option String

/-- A chat message as held by the UI. -/
structure ChatMessage where
  role : String
  content : String
  sources : Option (List Source)

/-- The JSON body both chat endpoints receive; `conversation_history`
carries role/content pairs only. -/
structure ChatRequestBody where
  message : String
  mode : String
  year : Int
  stream : String
  conversation_history : List (String × String)

/-- Request body built by `sendMessage` (lines 290-299). -/
def sendMessageBody (message mode : String) (year : Int) (stream : String)
    (conversationHistory : List ChatMessage) : ChatRequestBody :=
  { message := message, mode := mode, year := year, stream := stream,
    conversation_history := conversationHistory.map (fun m => (m.role, m.content)) }

/-- Request body built by `sendMessageStream` (lines 320-329). -/
def sendMessageStreamBody (message mode : String) (year : Int) (stream : String)
    (conversationHistory : List ChatMessage) : ChatRequestBody :=
  { message := message, mode := mode, year := year, stream := stream,
    conversation_history := conversationHistory.map (fun m => (m.role, m.content)) }

/-! ## Streaming consumer `sendMessageStream` (lines 303-372) -/

/-- One callback invocation recorded in order: `onChunk(data.content)`,
`onDone(data.sources || [])` or `onError(...)`.  An `Option Json` argument
is `none` when JavaScript would pass `undefined`. -/
inductive CallbackCall where
  | onChunk (content : Option Json)
  | onDone (sources : Json)
  | onError (err : Option Json)

/-- Dispatch of one parsed event object (lines 359-365): compare
`data.type` against the three event names and invoke the matching callback;
a TypeError from property access is caught by the surrounding `try` and
yields no callback. -/
def dispatchEvent (data : Json) : Option CallbackCall :=
  match jsProp data "type".data with
  | Except.error _ => none
  | Except.ok t =>
    match t with
    | some (Json.str ty) =>
        if ty = "chunk".data then
          match jsProp data "content".data with
          | Except.error _ => none
          | Except.ok c => some (CallbackCall.onChunk c)
        else if ty = "done".data then
          match jsProp data "sources".data with
          | Except.error _ => none
          | Except.ok s => some (CallbackCall.onDone (jsOr s (Json.arr [])))
        else if ty = "error".data then
          match jsProp data "content".data with
          | Except.error _ => none
          | Except.ok c => some (CallbackCall.onError c)
        else none
    | _ => none

/-- Treatment of one complete line (lines 356-368): only lines starting
with `data: ` are considered; the remainder after the 6-character marker is
parsed as JSON, a parse failure being silently skipped. -/
def parseDataLine (line : Str) : Option CallbackCall :=
  if "data: ".data.isPrefixOf line then
    match jsonParse (line.drop 6) with
    | some data => dispatchEvent data
    | none => none
  else none

/-- JavaScript `buffer.split("\n")`: the list of newline-separated pieces,
always nonempty. -/
def splitNl : Str → List Str
  | [] => [[]]
  | c :: rest =>
      if c = '\n' then [] :: splitNl rest
      else
        match splitNl rest with
        | [] => [[c]]
        | l :: ls => (c :: l) :: ls

/-- The read loop (lines 346-371): append each decoded chunk to the buffer,
split on newlines, keep the final (possibly incomplete) piece as the new
buffer, and dispatch every complete line in order.  The leftover buffer is
discarded when the reader reports end of stream. -/
def processStream : List Str → Str → List CallbackCall
  | [], _ => []
  | chunk :: rest, buffer =>
      let lines := splitNl (buffer ++ chunk)
      let newBuffer := lines.getLastD []
      let complete := lines.dropLast
      complete.filterMap parseDataLine ++ processStream rest newBuffer

/-- The streaming response as `sendMessageStream` observes it: status, the
outcome of `res.json()` on the failure path (`none` when that promise
rejects), and the body (`none` when no reader is available, otherwise the
decoded text of each successive read). -/
structure StreamResponse where
  status : Nat
  errJson : Option Json
  body : Option (List Str)

/-- What the underlying `fetch` does: reject, or resolve to a response. -/
inductive FetchOutcome where
  | rejects (e : String)
  | resolves (r : StreamResponse)

/-- How a `sendMessageStream` call ends: its promise resolves after the
recorded callback calls, or rejects (carrying the callbacks already made). -/
inductive StreamOutcome where
  | rejected (calls : List CallbackCall) (e : String)
  | resolved (calls : List CallbackCall)

/-- Whether the promise rejected. -/
def StreamOutcome.isRejected : StreamOutcome → Bool
  | StreamOutcome.rejected _ _ => true
  | StreamOutcome.resolved _ => false

/-- The callbacks invoked, in order. -/
def StreamOutcome.calls : StreamOutcome → List CallbackCall
  | StreamOutcome.rejected cs _ => cs
  | StreamOutcome.resolved cs => cs

/-- `sendMessageStream` (lines 303-372), response phase.  The request phase
is `sendMessageStreamHeaders` and `sendMessageStreamBody`.  A rejection of
the underlying `fetch` propagates (there is no surrounding `try`).  On a
non-success status the error body is parsed with a fallback object and
`onError(error.detail || "Stream failed")` is invoked — reading `.detail`
of a JSON `null` body throws, rejecting the promise.  On success without a
readable body `onError("No response body")` is invoked; otherwise the read
loop runs to end of stream. -/
def sendMessageStream (f : FetchOutcome) : StreamOutcome :=
  match f with
  | FetchOutcome.rejects e => StreamOutcome.rejected [] e
  | FetchOutcome.resolves r =>
    if resOk r.status = false then
      let errBody :=
        match r.errJson with
        | some j => j
        | none => Json.obj [("detail".data, Json.str "Stream failed".data)]
      match jsProp errBody "detail".data with
      | Except.error e => StreamOutcome.rejected [] e
      | Except.ok d =>
          StreamOutcome.resolved
            [CallbackCall.onError (some (jsOr d (Json.str "Stream failed".data)))]
    else
      match r.body with
      | none =>
          StreamOutcome.resolved
            [CallbackCall.onError (some (Json.str "No response body".data))]
      | some chunks => StreamOutcome.resolved (processStream chunks [])

/-! ## Concrete wire inputs used by the claims -/

/-- The wire line `data: ...chunk "a"...` with its newline. -/
def chunkLineA : Str :=
  "data: \x7b\"type\":\"chunk\",\"content\":\"a\"\x7d".data

/-- The wire line `data: ...chunk "b"...` with its newline. -/
def chunkLineB : Str :=
  "data: \x7b\"type\":\"chunk\",\"content\":\"b\"\x7d".data

/-- The wire line `data: ...done, empty sources...`. -/
def doneLine : Str :=
  "data: \x7b\"type\":\"done\",\"sources\":[]\x7d".data

/-- The callback recorded for the chunk `"a"`. -/
def chunkCallA : CallbackCall :=
  CallbackCall.onChunk (some (Json.str "a".data))

/-- The callback recorded for the chunk `"b"`. -/
def chunkCallB : CallbackCall :=
  CallbackCall.onChunk (some (Json.str "b".data))

/-- The callback recorded for a `done` event with empty sources. -/
def doneCallEmpty : CallbackCall :=
  CallbackCall.onDone (Json.arr [])

/-! ## Helper lemmas -/

/-- Splitting a buffer that starts with a newline-terminated, newline-free
piece yields that piece followed by the split of the remainder. -/
theorem splitNl_append_newline (a rest : Str) (h : '\n' ∉ a) :
    splitNl (a ++ '\n' :: rest) = a :: splitNl rest := by
  induction a with
  | nil => simp [splitNl]
  | cons c cs ih =>
      have hc : ¬ c = '\n' := fun e => h (by simp [e])
      have ih2 := ih (fun hm => h (List.mem_cons_of_mem _ hm))
      simp [splitNl, hc, ih2]

/-- On any value other than `null`, JavaScript property access does not
throw and yields `jsPropD`. -/
theorem jsProp_ok_of_ne_null (j : Json) (k : Str) (h : j ≠ Json.null) :
    jsProp j k = Except.ok (jsPropD j k) := by
  cases j
  case null => exact absurd rfl h
  all_goals rfl

/-! ## Claim theorems -/

/-- C2: a stream delivering the chunk-`a` line, the chunk-`b` line and the
done-empty-sources line (whether in a single read or one line per read)
invokes `onChunk("a")` then `onChunk("b")` in that order, then exactly one
`onDone([])` after all chunk calls, and never `onError`. -/
theorem stream_happy_path_callbacks (errJson : Option Json) :
    sendMessageStream (FetchOutcome.resolves
        ⟨200, errJson, some [chunkLineA ++ '\n' :: (chunkLineB ++ '\n' :: (doneLine ++ ['\n']))]⟩) =
      StreamOutcome.resolved [chunkCallA, chunkCallB, doneCallEmpty] ∧
    sendMessageStream (FetchOutcome.resolves
        ⟨200, errJson, some [chunkLineA ++ ['\n'], chunkLineB ++ ['\n'], doneLine ++ ['\n']]⟩) =
      StreamOutcome.resolved [chunkCallA, chunkCallB, doneCallEmpty] :=
  ⟨rfl, rfl⟩

/-- C10: the read loop does not stop at a terminal event: with a body
carrying chunk-`a`, done, chunk-`b`, done lines, `onDone` fires twice and
the events after the first `done` still fire, in wire order. -/
theorem stream_continues_after_done (errJson : Option Json) :
    sendMessageStream (FetchOutcome.resolves
        ⟨200, errJson,
         some [chunkLineA ++ '\n' :: (doneLine ++ '\n' :: (chunkLineB ++ '\n' :: (doneLine ++ ['\n'])))]⟩) =
      StreamOutcome.resolved [chunkCallA, doneCallEmpty, chunkCallB, doneCallEmpty] :=
  rfl

/-- C3: on a 401 response, whatever the path, stored credential and
response body, `apiFetch` clears the credential, performs exactly one
navigation to the login screen, throws `Error("Unauthorized")`, and never
touches the response body (the model issues a single fetch, so no retry is
possible). -/
theorem apiFetch_unauthorized (storage : Option String) (path : String)
    (caller : Headers) (r : ApiResponse) (h : r.status = 401) :
    (apiFetch storage path caller r).storage = none ∧
    (apiFetch storage path caller r).navCount = 1 ∧
    (apiFetch storage path caller r).bodyParsed = false ∧
    (apiFetch storage path caller r).outcome =
      ApiOutcome.failure (Json.str "Unauthorized".data) := by
  obtain ⟨status, ej, oj⟩ := r
  simp only at h
  subst h
  simp [apiFetch, clearToken]

/-- C3 witness: a concrete 401 response against a populated session. -/
theorem apiFetch_unauthorized_witness :
    (apiFetch (some "tok") "/chat" (fun _ => none) ⟨401, none, none⟩).storage = none ∧
    (apiFetch (some "tok") "/chat" (fun _ => none) ⟨401, none, none⟩).navCount = 1 ∧
    (apiFetch (some "tok") "/chat" (fun _ => none) ⟨401, none, none⟩).bodyParsed = false ∧
    (apiFetch (some "tok") "/chat" (fun _ => none) ⟨401, none, none⟩).outcome =
      ApiOutcome.failure (Json.str "Unauthorized".data) :=
  apiFetch_unauthorized (some "tok") "/chat" (fun _ => none) ⟨401, none, none⟩ rfl

/-- C6 counterexample: with an empty-string token stored, `getToken`
returns a present value but `isLoggedIn` is `false`, refuting the claimed
equivalence with presence alone. -/
theorem isLoggedIn_empty_token_counterexample :
    (getToken (some "")).isSome = true ∧ isLoggedIn (some "") = false := by
  constructor <;> rfl

/-- C6 (amended): `isLoggedIn` is true exactly when `getToken` returns a
present and nonempty value; both are pure functions of the storage state. -/
theorem isLoggedIn_iff_nonempty_token (storage : Option String) :
    isLoggedIn storage = true ↔ ∃ t, getToken storage = some t ∧ t ≠ "" := by
  cases storage with
  | none => simp [isLoggedIn, getToken, jsTruthyStr]
  | some t => simp [isLoggedIn, getToken, jsTruthyStr]

/-- C1 counterexample: with no credential in the session store,
`sendMessageStream` still sends an `Authorization` header, whose value is
the template-interpolated literal `Bearer null`. -/
theorem stream_auth_header_counterexample :
    sendMessageStreamHeaders (getToken none) "Authorization" = some "Bearer null" ∧
    sendMessageStreamHeaders (getToken none) "Authorization" ≠ none := by
  constructor
  · rfl
  · intro h
    simp [sendMessageStreamHeaders, hset, jsTemplateStr] at h

/-- C1 (amended): with a nonempty credential set, both `apiFetch` and
`sendMessageStream` send `Authorization: Bearer <credential>`; with no
credential set, `apiFetch` sends no `Authorization` header provided the
caller supplies none, while `sendMessageStream` sends the literal
`Bearer null`. -/
theorem outbound_authorization_header (storage : Option String) (caller : Headers) :
    (∀ t, storage = some t → t ≠ "" →
        apiFetchHeaders (getToken storage) caller "Authorization" = some ("Bearer " ++ t)) ∧
    (storage = none → caller "Authorization" = none →
        apiFetchHeaders (getToken storage) caller "Authorization" = none) ∧
    (∀ t, storage = some t →
        sendMessageStreamHeaders (getToken storage) "Authorization" = some ("Bearer " ++ t)) ∧
    (storage = none →
        sendMessageStreamHeaders (getToken storage) "Authorization" = some "Bearer null") := by
  refine ⟨?_, ?_, ?_, ?_⟩
  · intro t hs ht
    subst hs
    simp [getToken, apiFetchHeaders, hset, bne_iff_ne, ht]
  · intro hs hc
    subst hs
    simp [getToken, apiFetchHeaders, mergeHeaders, contentTypeJson, hc]
  · intro t hs
    subst hs
    simp [getToken, sendMessageStreamHeaders, hset, jsTemplateStr]
  · intro hs
    subst hs
    rfl

/-- C1 witness: concrete instances of all four conjuncts. -/
theorem outbound_authorization_header_witness :
    apiFetchHeaders (getToken (some "tok")) (fun _ => none) "Authorization" = some "Bearer tok" ∧
    apiFetchHeaders (getToken none) (fun _ => none) "Authorization" = none ∧
    sendMessageStreamHeaders (getToken (some "tok")) "Authorization" = some "Bearer tok" ∧
    sendMessageStreamHeaders (getToken none) "Authorization" = some "Bearer null" :=
  ⟨(outbound_authorization_header (some "tok") (fun _ => none)).1 "tok" rfl (by decide),
   (outbound_authorization_header none (fun _ => none)).2.1 rfl rfl,
   (outbound_authorization_header (some "tok") (fun _ => none)).2.2.1 "tok" rfl,
   (outbound_authorization_header none (fun _ => none)).2.2.2 rfl⟩

/-- C5 counterexample: with a credential present, a caller-supplied
`Authorization` header is not the one sent — the credential's header,
assigned after the merge, overrides it. -/
theorem caller_authorization_overridden_counterexample :
    apiFetchHeaders (some "tok") (hset (fun _ => none) "Authorization" "custom")
      "Authorization" = some "Bearer tok" ∧
    apiFetchHeaders (some "tok") (hset (fun _ => none) "Authorization" "custom")
      "Authorization" ≠ some "custom" := by
  constructor
  · rfl
  · intro h
    simp [apiFetchHeaders, mergeHeaders, contentTypeJson, hset] at h

/-- C5 (amended): headers are built from the fixed `Content-Type` with
caller-supplied headers merged on top, except that the `Authorization`
header derived from a present nonempty credential is assigned after the
merge and overrides any caller-supplied `Authorization`; only with a falsy
(absent or empty) credential is the caller's `Authorization` the one sent. -/
theorem apiFetch_header_merge (token : Option String) (caller : Headers) :
    (∀ k v, caller k = some v → k ≠ "Authorization" →
        apiFetchHeaders token caller k = some v) ∧
    (caller "Content-Type" = none →
        apiFetchHeaders token caller "Content-Type" = some "application/json") ∧
    (∀ t, token = some t → t ≠ "" →
        apiFetchHeaders token caller "Authorization" = some ("Bearer " ++ t)) ∧
    (jsTruthyStr token = false →
        apiFetchHeaders token caller "Authorization" = caller "Authorization") := by
  refine ⟨?_, ?_, ?_, ?_⟩
  · intro k v hkv hk
    cases token with
    | none => simp [apiFetchHeaders, mergeHeaders, hkv]
    | some t =>
        by_cases ht : t = ""
        · subst ht
          simp [apiFetchHeaders, mergeHeaders, hkv]
        · simp [apiFetchHeaders, bne_iff_ne, ht, hset, hk, mergeHeaders, hkv]
  · intro hct
    cases token with
    | none => simp [apiFetchHeaders, mergeHeaders, contentTypeJson, hct]
    | some t =>
        by_cases ht : t = ""
        · subst ht
          simp [apiFetchHeaders, mergeHeaders, contentTypeJson, hct]
        · simp [apiFetchHeaders, bne_iff_ne, ht, hset, mergeHeaders, contentTypeJson, hct]
  · intro t hs ht
    subst hs
    simp [apiFetchHeaders, bne_iff_ne, ht, hset]
  · intro hfalsy
    cases token with
    | none =>
        cases hc : caller "Authorization" <;>
          simp [apiFetchHeaders, mergeHeaders, contentTypeJson, hc]
    | some t =>
        have ht : t = "" := by
          by_contra hne
          simp [jsTruthyStr, bne_iff_ne, hne] at hfalsy
        subst ht
        cases hc : caller "Authorization" <;>
          simp [apiFetchHeaders, mergeHeaders, contentTypeJson, hc]

/-- C5 witness: concrete instances of all four conjuncts. -/
theorem apiFetch_header_merge_witness :
    apiFetchHeaders (some "tok") (hset (fun _ => none) "X-Other" "v") "X-Other" = some "v" ∧
    apiFetchHeaders (some "tok") (hset (fun _ => none) "X-Other" "v") "Content-Type" =
      some "application/json" ∧
    apiFetchHeaders (some "tok") (hset (fun _ => none) "X-Other" "v") "Authorization" =
      some "Bearer tok" ∧
    apiFetchHeaders none (hset (fun _ => none) "Authorization" "custom") "Authorization" =
      some "custom" := by
  have h1 := apiFetch_header_merge (some "tok") (hset (fun _ => none) "X-Other" "v")
  have h2 := apiFetch_header_merge none (hset (fun _ => none) "Authorization" "custom")
  exact ⟨h1.1 "X-Other" "v" rfl (by decide), h1.2.1 rfl,
         h1.2.2.1 "tok" rfl (by decide), h2.2.2.2 rfl⟩

/-- C7: both chat request bodies carry exactly the role/content pairs of
the history in order (sources are stripped by construction), so two
histories agreeing on roles and contents — in particular, differing only in
their messages' `sources` — produce identical request bodies. -/
theorem conversation_history_strips_sources (message mode : String) (year : Int)
    (stream : String) (h1 h2 : List ChatMessage)
    (hsame : h1.map (fun m => (m.role, m.content)) = h2.map (fun m => (m.role, m.content))) :
    (sendMessageBody message mode year stream h1).conversation_history =
        h1.map (fun m => (m.role, m.content)) ∧
    (sendMessageStreamBody message mode year stream h1).conversation_history =
        h1.map (fun m => (m.role, m.content)) ∧
    sendMessageBody message mode year stream h1 = sendMessageBody message mode year stream h2 ∧
    sendMessageStreamBody message mode year stream h1 =
        sendMessageStreamBody message mode year stream h2 := by
  refine ⟨rfl, rfl, ?_, ?_⟩ <;> simp [sendMessageBody, sendMessageStreamBody, hsame]

/-- C7 witness: two one-message histories differing only in the assistant
sources produce the same body, which lists the single role/content pair. -/
theorem conversation_history_strips_sources_witness :
    (sendMessageBody "q" "study_buddy" 2 "CSE"
        [⟨"assistant", "hi", some [⟨"notes.pdf", "pdf", none⟩]⟩]).conversation_history =
      [("assistant", "hi")] ∧
    (sendMessageStreamBody "q" "study_buddy" 2 "CSE"
        [⟨"assistant", "hi", some [⟨"notes.pdf", "pdf", none⟩]⟩]).conversation_history =
      [("assistant", "hi")] ∧
    sendMessageBody "q" "study_buddy" 2 "CSE"
        [⟨"assistant", "hi", some [⟨"notes.pdf", "pdf", none⟩]⟩] =
      sendMessageBody "q" "study_buddy" 2 "CSE" [⟨"assistant", "hi", none⟩] ∧
    sendMessageStreamBody "q" "study_buddy" 2 "CSE"
        [⟨"assistant", "hi", some [⟨"notes.pdf", "pdf", none⟩]⟩] =
      sendMessageStreamBody "q" "study_buddy" 2 "CSE" [⟨"assistant", "hi", none⟩] :=
  conversation_history_strips_sources "q" "study_buddy" 2 "CSE"
    [⟨"assistant", "hi", some [⟨"notes.pdf", "pdf", none⟩]⟩]
    [⟨"assistant", "hi", none⟩] rfl

/-- C4 counterexample: when the underlying `fetch` rejects (for example a
network failure), `sendMessageStream` neither catches the rejection nor
reports it through `onError`: its promise rejects with the same error after
zero callback invocations. -/
theorem stream_rejects_on_fetch_failure :
    sendMessageStream (FetchOutcome.rejects "NetworkError") =
      StreamOutcome.rejected [] "NetworkError" ∧
    (sendMessageStream (FetchOutcome.rejects "NetworkError")).isRejected = true :=
  ⟨rfl, rfl⟩

/-- C4 (amended): the errors `sendMessageStream` itself detects are
reported only via `onError` and its promise resolves, but a rejection of
the underlying transport propagates as a rejection of the returned promise,
as does the TypeError raised when a non-success response's body parses to
JSON `null`. -/
theorem stream_resolves_unless_transport_fails (r : StreamResponse)
    (h : r.errJson ≠ some Json.null ∨ resOk r.status = true) :
    (sendMessageStream (FetchOutcome.resolves r)).isRejected = false := by
  obtain ⟨status, errJson, body⟩ := r
  cases hok : resOk status with
  | true =>
      cases body <;>
        simp [sendMessageStream, hok, StreamOutcome.isRejected]
  | false =>
      have hne : errJson ≠ some Json.null := by
        rcases h with h | h
        · exact h
        · rw [hok] at h
          exact absurd h (by simp)
      cases errJson with
      | none => simp [sendMessageStream, hok, jsProp, StreamOutcome.isRejected]
      | some j =>
          cases j
          case null => exact absurd rfl hne
          all_goals simp [sendMessageStream, hok, jsProp, StreamOutcome.isRejected]

/-- C4 witness: a concrete non-success response with an object error body
resolves (the error is reported via `onError`, not thrown). -/
theorem stream_resolves_unless_transport_fails_witness :
    ((some (Json.obj [("detail".data, Json.str "bad".data)]) ≠ some Json.null ∨
        resOk 500 = true) ∧
      (sendMessageStream (FetchOutcome.resolves
          ⟨500, some (Json.obj [("detail".data, Json.str "bad".data)]), none⟩)).isRejected =
        false) :=
  ⟨Or.inl (fun h => Json.noConfusion (Option.some.inj h)),
   stream_resolves_unless_transport_fails
     ⟨500, some (Json.obj [("detail".data, Json.str "bad".data)]), none⟩
     (Or.inl (fun h => Json.noConfusion (Option.some.inj h)))⟩

/-- C8: a `data: `-prefixed line whose remainder is not valid JSON, sitting
between the two valid chunk lines, is silently skipped: both chunks are
delivered in order, no callback fires for the malformed line, and the
stream continues past it. -/
theorem stream_skips_malformed_line (bad : Str)
    (hpre : "data: ".data.isPrefixOf bad = true)
    (hbad : jsonParse (bad.drop 6) = none)
    (hnl : '\n' ∉ bad) :
    sendMessageStream (FetchOutcome.resolves
        ⟨200, none, some [chunkLineA ++ '\n' :: (bad ++ '\n' :: (chunkLineB ++ ['\n']))]⟩) =
      StreamOutcome.resolved [chunkCallA, chunkCallB] := by
  have hsplit : splitNl (chunkLineA ++ '\n' :: (bad ++ '\n' :: (chunkLineB ++ ['\n']))) =
      [chunkLineA, bad, chunkLineB, []] := by
    rw [splitNl_append_newline _ _ (by decide), splitNl_append_newline _ _ hnl]
    have hb : chunkLineB ++ ['\n'] = chunkLineB ++ '\n' :: ([] : Str) := rfl
    rw [hb, splitNl_append_newline _ _ (by decide)]
    rfl
  have hbadline : parseDataLine bad = none := by
    simp [parseDataLine, hpre, hbad]
  have hA : parseDataLine chunkLineA = some chunkCallA := rfl
  have hB : parseDataLine chunkLineB = some chunkCallB := rfl
  show StreamOutcome.resolved
      (processStream [chunkLineA ++ '\n' :: (bad ++ '\n' :: (chunkLineB ++ ['\n']))] []) = _
  simp [processStream, hsplit, List.filterMap_cons, hA, hB, hbadline]

/-- C8 witness: the malformed middle line `data: not-json`. -/
theorem stream_skips_malformed_line_witness :
    ("data: ".data.isPrefixOf "data: not-json".data = true ∧
      jsonParse ("data: not-json".data.drop 6) = none ∧
      '\n' ∉ "data: not-json".data) ∧
    sendMessageStream (FetchOutcome.resolves
        ⟨200, none,
         some [chunkLineA ++ '\n' :: ("data: not-json".data ++ '\n' :: (chunkLineB ++ ['\n']))]⟩) =
      StreamOutcome.resolved [chunkCallA, chunkCallB] :=
  ⟨⟨by decide, rfl, by decide⟩,
   stream_skips_malformed_line "data: not-json".data (by decide) rfl (by decide)⟩

/-- C9 counterexample: a non-success response whose body parses to JSON
`null` makes `sendMessageStream` throw a TypeError while reading
`error.detail`, so the promise rejects and `onError` is never invoked. -/
theorem stream_init_error_null_body_counterexample :
    sendMessageStream (FetchOutcome.resolves ⟨400, some Json.null, none⟩) =
      StreamOutcome.rejected [] "TypeError" ∧
    (sendMessageStream (FetchOutcome.resolves ⟨400, some Json.null, none⟩)).calls = [] :=
  ⟨rfl, rfl⟩

/-- C9 (amended): on a non-success status, when the error body parses to a
JSON value other than `null`, `onError` fires exactly once with the body's
`detail` field if truthy and the fixed fallback otherwise, with no
`onChunk`/`onDone` and no stream opened; when the body is unparseable the
fixed fallback is used; on a success response without a readable body,
`onError` fires exactly once with the fixed no-body message.  (A JSON
`null` body instead rejects the promise with a TypeError.) -/
theorem stream_init_error_callbacks (r : StreamResponse) :
    (∀ j, resOk r.status = false → r.errJson = some j → j ≠ Json.null →
        sendMessageStream (FetchOutcome.resolves r) =
          StreamOutcome.resolved
            [CallbackCall.onError (some (jsOr (jsPropD j "detail".data)
                (Json.str "Stream failed".data)))]) ∧
    (resOk r.status = false → r.errJson = none →
        sendMessageStream (FetchOutcome.resolves r) =
          StreamOutcome.resolved
            [CallbackCall.onError (some (Json.str "Stream failed".data))]) ∧
    (resOk r.status = true → r.body = none →
        sendMessageStream (FetchOutcome.resolves r) =
          StreamOutcome.resolved
            [CallbackCall.onError (some (Json.str "No response body".data))]) := by
  obtain ⟨status, errJson, body⟩ := r
  refine ⟨?_, ?_, ?_⟩
  · intro j hok hej hnn
    simp only at hok hej
    subst hej
    simp [sendMessageStream, hok, jsProp_ok_of_ne_null _ _ hnn]
  · intro hok hej
    simp only at hok hej
    subst hej
    simp [sendMessageStream, hok, jsProp, jget, jsOr, jsTruthy]
  · intro hok hbody
    simp only at hok hbody
    subst hbody
    simp [sendMessageStream, hok]

/-- C9 witness: the spec's concrete instance (status 400, body
`detail: bad mode`), an unparseable body, and a success without a body. -/
theorem stream_init_error_callbacks_witness :
    sendMessageStream (FetchOutcome.resolves
        ⟨400, some (Json.obj [("detail".data, Json.str "bad mode".data)]), none⟩) =
      StreamOutcome.resolved [CallbackCall.onError (some (Json.str "bad mode".data))] ∧
    sendMessageStream (FetchOutcome.resolves ⟨500, none, none⟩) =
      StreamOutcome.resolved [CallbackCall.onError (some (Json.str "Stream failed".data))] ∧
    sendMessageStream (FetchOutcome.resolves ⟨200, none, none⟩) =
      StreamOutcome.resolved [CallbackCall.onError (some (Json.str "No response body".data))] :=
  ⟨(stream_init_error_callbacks
      ⟨400, some (Json.obj [("detail".data, Json.str "bad mode".data)]), none⟩).1
      (Json.obj [("detail".data, Json.str "bad mode".data)]) rfl rfl
      (fun h => Json.noConfusion h),
   (stream_init_error_callbacks ⟨500, none, none⟩).2.1 rfl rfl,
   (stream_init_error_callbacks ⟨200, none, none⟩).2.2 rfl rfl⟩
